import Mathlib

/-!
Verification of the revival algorithm of `langchain_core/load/load.py`:
the `Reviver` visitor (secret, not-implemented and constructor node
dispatch) and the recursive bottom-up walker of `load`.

The embedding follows the Python source closely.  Python runtime values
that can flow through the walker are modelled by `Value`; raised
exceptions are modelled by the `LoadError` sum returned through
`Except`.  The external collaborators (the process environment,
`importlib.import_module` + `getattr`, and the `issubclass(_, Serializable)`
capability check) are modelled by a `World` record of oracles; the four
static mapping tables imported from `langchain_core.load.mapping` are
modelled by a `SerializableMappings` record of association lists.
-/

namespace LangChainLoad

/-- Python runtime values seen by the walker: parsed JSON scalars and
containers, plus `inst cls kwargs`, which stands for the live object
returned by `cls(**kwargs)` at line 148 of `load.py`. -/
inductive Value where
  | null
  | bool (b : Bool)
  | num (n : Int)
  | str (s : String)
  | arr (elems : List Value)
  | obj (fields : List (String × Value))
  | inst (cls : String) (kwargs : List (String × Value))

/-- Exceptions the revival code can raise.  `missingSecret` is the
`KeyError` of line 88, `notSerializable` the `NotImplementedError` of
line 95, `invalidNamespace` the `ValueError("Invalid namespace: ...")` of
lines 108, 112 and 143, `unsupportedVersion` the `ValueError` of line 119,
`importError` an `ImportError`/`AttributeError` escaping module or symbol
resolution, `keyError` a dict `KeyError`, `typeError` a `TypeError` (bad
unpack target, non-string join/getattr argument, non-mapping `kwargs`),
`unpackError` the `ValueError` of a wrong-arity list destructuring, and
`indexError` an `IndexError` from indexing an empty list. -/
inductive LoadError where
  | missingSecret (key : Value)
  | notSerializable (value : List (String × Value))
  | invalidNamespace (value : List (String × Value))
  | unsupportedVersion (key : List Value)
  | importError (modulePath : String) (attrName : String)
  | keyError (key : List Value)
  | typeError
  | unpackError
  | indexError

/-- External oracles of the revival code: the process environment
(`os.environ`), combined module import plus attribute lookup
(`importlib.import_module(modulePath)` then `getattr(mod, attrName)`,
`none` meaning either step raises), and the
`issubclass(cls, Serializable)` capability check of line 142. -/
structure World where
  osEnv : List (String × String)
  importAttr : String → String → Option String
  isSerializableClass : String → Bool

/-- Last-occurrence lookup in an association list.  This matches lookup in
a Python `dict` built from the listed pairs in order (later duplicates
win), so list append is exactly the `{**a, **b}` dict merge for lookups. -/
def dget {K V : Type} [DecidableEq K] : List (K × V) → K → Option V
  | [], _ => none
  | (k', v) :: rest, k =>
    match dget rest k with
    | some r => some r
    | none => if k' = k then some v else none

/-- `DEFAULT_NAMESPACES` of `load.py` lines 15-22. -/
def DEFAULT_NAMESPACES : List String :=
  ["langchain", "langchain_core", "langchain_community", "langchain_anthropic",
   "langchain_groq", "langchain_google_genai"]

/-- The four static mapping tables imported from
`langchain_core.load.mapping` (not part of the analysed core; the spec
treats them as an opaque pre-built lookup service), each a dict from a
symbol key to a resolution path. -/
structure SerializableMappings where
  serializableMapping : List (List String × List String)
  oldCoreNamespacesMapping : List (List String × List String)
  ogSerializableMapping : List (List String × List String)
  jsSerializableMapping : List (List String × List String)

/-- `ALL_SERIALIZABLE_MAPPINGS` of `load.py` lines 24-29: the dict merge
`{**SERIALIZABLE_MAPPING, **OLD_CORE_NAMESPACES_MAPPING,
**_OG_SERIALIZABLE_MAPPING, **_JS_SERIALIZABLE_MAPPING}` (later tables
win on key collision, which `dget`'s last-occurrence lookup gives). -/
def allSerializableMappings (t : SerializableMappings) :
    List (List String × List String) :=
  t.serializableMapping ++ t.oldCoreNamespacesMapping ++
    t.ogSerializableMapping ++ t.jsSerializableMapping

/-- The revival context: the fields of the Python `Reviver` object. -/
structure Reviver where
  secretsFromEnv : Bool
  secretsMap : List (String × String)
  validNamespaces : List String
  additionalImportMappings : List (List String × List String)
  importMappings : List (List String × List String)

/-- `Reviver.__init__` (`load.py` lines 35-74).  `Option.none` models a
`None` argument; Python truthiness makes `None` and the empty dict/list
interchangeable in the `or` / conditional expressions. -/
def Reviver.init (t : SerializableMappings)
    (secretsMap : Option (List (String × String)))
    (validNamespaces : Option (List String))
    (secretsFromEnv : Bool)
    (additionalImportMappings : Option (List (List String × List String))) :
    Reviver :=
  let sm := match secretsMap with
    | some m => m
    | none => []
  let vns := match validNamespaces with
    | some l => if l.isEmpty then DEFAULT_NAMESPACES else DEFAULT_NAMESPACES ++ l
    | none => DEFAULT_NAMESPACES
  let aim := match additionalImportMappings with
    | some m => m
    | none => []
  { secretsFromEnv := secretsFromEnv
    secretsMap := sm
    validNamespaces := vns
    additionalImportMappings := aim
    importMappings :=
      if aim.isEmpty then allSerializableMappings t
      else allSerializableMappings t ++ aim }

/-- Python `v == 1` on a JSON-derived value: the integer `1` and `True`
compare equal to `1` (Python `bool` is a subtype of `int`). -/
def pyEqOne : Value → Bool
  | .num n => n == 1
  | .bool b => b
  | _ => false

/-- The three-conjunct guard of each dispatch branch of
`Reviver.__call__`: `value.get("lc", None) == 1`,
`value.get("type", None) == ty` and `value.get("id", None) is not None`
(a JSON `null` parses to Python `None`, so a present-but-null `id` also
fails the guard). -/
def isNode (value : List (String × Value)) (ty : String) : Bool :=
  (match dget value "lc" with
    | some v => pyEqOne v
    | none => false)
  && (match dget value "type" with
    | some (.str s) => s == ty
    | _ => false)
  && (match dget value "id" with
    | some .null => false
    | some _ => true
    | none => false)

/-- All string elements, or `none`: a tuple with a non-string element is
never a key of the (string-tuple keyed) mapping dicts, and joining it
with `"."` raises `TypeError`. -/
def asStrings : List Value → Option (List String)
  | [] => some []
  | .str s :: rest => (asStrings rest).map (fun l => s :: l)
  | _ => none

/-- Resolution through a mapped import path (`load.py` lines 124-130 and
134-136): split the path into module dir and final symbol, import the
module and fetch the symbol. -/
def importViaPath (w : World) (path : List String) : Except LoadError String :=
  match path.getLast? with
  | none => .error .indexError
  | some obj =>
    match w.importAttr (String.intercalate "." path.dropLast) obj with
    | none => .error (.importError (String.intercalate "." path.dropLast) obj)
    | some cls => .ok cls

/-- Direct resolution for a custom namespace with no override (`load.py`
line 138 and 139): import the module named by the dot-joined namespace and
fetch `name`; non-string segments or name raise `TypeError`. -/
def importDirect (w : World) (ns : List Value) (name : Value) :
    Except LoadError String :=
  match asStrings ns with
  | none => .error .typeError
  | some nss =>
    match name with
    | .str nm =>
      match w.importAttr (String.intercalate "." nss) nm with
      | none => .error (.importError (String.intercalate "." nss) nm)
      | some cls => .ok cls
    | _ => .error .typeError

/-- `load.py` lines 141-148: the resolved symbol must pass the
`issubclass(cls, Serializable)` gate (else `ValueError("Invalid
namespace: ...")`), then `kwargs = value.get("kwargs", dict())` and the
call `cls(**kwargs)`, which needs a mapping. -/
def finishConstruct (w : World) (value : List (String × Value)) (cls : String) :
    Except LoadError Value :=
  if w.isSerializableClass cls then
    match dget value "kwargs" with
    | none => .ok (.inst cls [])
    | some (.obj kvs) => .ok (.inst cls kvs)
    | some _ => .error .typeError
  else .error (.invalidNamespace value)

/-- Resolution through a mapped path followed by the capability gate and
the construction call: the common tail of `load.py` lines 124-130/134-139
with lines 141-148. -/
def constructVia (w : World) (value : List (String × Value)) (path : List String) :
    Except LoadError Value :=
  match importViaPath w path with
  | .ok cls => finishConstruct w value cls
  | .error e => .error e

/-- `Reviver.__call__` (`load.py` lines 76-150), applied to a mapping
whose values were already revived by the walker. -/
def Reviver.call (r : Reviver) (w : World) (value : List (String × Value)) :
    Except LoadError Value :=
  if isNode value "secret" then
    match dget value "id" with
    | some (.arr [.str k]) =>
      match dget r.secretsMap k with
      | some v => .ok (.str v)
      | none =>
        if r.secretsFromEnv then
          match dget w.osEnv k with
          | some ev => if ev = "" then .error (.missingSecret (.str k)) else .ok (.str ev)
          | none => .error (.missingSecret (.str k))
        else .error (.missingSecret (.str k))
    | some (.arr [key]) =>
      -- a non-string key is never in the (string-keyed) secrets_map, and
      -- `key in os.environ` then raises TypeError
      if r.secretsFromEnv then .error .typeError
      else .error (.missingSecret key)
    | some (.arr _) => .error .unpackError
    | _ => .error .typeError
  else if isNode value "not_implemented" then
    .error (.notSerializable value)
  else if isNode value "constructor" then
    match dget value "id" with
    | some (.arr ids) =>
      -- [*namespace, name] = value["id"]
      match ids.getLast? with
      | none => .error .unpackError
      | some name =>
        let ns := ids.dropLast
        match ns with
        | [] =>
          -- namespace == []: evaluating namespace[0] on line 107 raises
          -- IndexError before any namespace validation happens
          .error .indexError
        | ns0 :: _ =>
          let ns0Valid : Bool := match ns0 with
            | .str s => r.validNamespaces.contains s
            | _ => false
          if !ns0Valid then .error (.invalidNamespace value)
          else if ns.length == 1 && (match ns0 with
              | .str s => s == "langchain"
              | _ => false) then
            .error (.invalidNamespace value)
          else
            let key := ns ++ [name]
            let ns0Default : Bool := match ns0 with
              | .str s => DEFAULT_NAMESPACES.contains s
              | _ => false
            if ns0Default then
              match asStrings key with
              | some ks =>
                match dget r.importMappings ks with
                | some path => constructVia w value path
                | none => .error (.unsupportedVersion key)
              | none => .error (.unsupportedVersion key)
            else
              match asStrings key with
              | some ks =>
                if (dget r.additionalImportMappings ks).isSome then
                  match dget r.importMappings ks with
                  | some path => constructVia w value path
                  | none => .error (.keyError key)
                else
                  match importDirect w ns name with
                  | .ok cls => finishConstruct w value cls
                  | .error e => .error e
              | none =>
                match importDirect w ns name with
                | .ok cls => finishConstruct w value cls
                | .error e => .error e
    | _ => .error .typeError
  else .ok (.obj value)

mutual

/-- The recursive walker `_load` of `load` (`load.py` lines 221-228):
dicts are rebuilt with every value revived first and then passed to the
reviver; lists are revived element-wise; anything else is returned
unchanged. -/
def loadValue (r : Reviver) (w : World) : Value → Except LoadError Value
  | .obj kvs =>
    match loadFields r w kvs with
    | .ok revived => r.call w revived
    | .error e => .error e
  | .arr xs =>
    match loadElems r w xs with
    | .ok rs => .ok (.arr rs)
    | .error e => .error e
  | .null => .ok .null
  | .bool b => .ok (.bool b)
  | .num n => .ok (.num n)
  | .str s => .ok (.str s)
  | .inst cls kwargs => .ok (.inst cls kwargs)

/-- `{k: _load(v) for k, v in obj.items()}`: values revived in iteration
order, keys kept; the first raised error propagates. -/
def loadFields (r : Reviver) (w : World) :
    List (String × Value) → Except LoadError (List (String × Value))
  | [] => .ok []
  | (k, v) :: rest =>
    match loadValue r w v with
    | .ok rv =>
      match loadFields r w rest with
      | .ok rrest => .ok ((k, rv) :: rrest)
      | .error e => .error e
    | .error e => .error e

/-- `[_load(o) for o in obj]`: elements revived in order. -/
def loadElems (r : Reviver) (w : World) :
    List Value → Except LoadError (List Value)
  | [] => .ok []
  | v :: rest =>
    match loadValue r w v with
    | .ok rv =>
      match loadElems r w rest with
      | .ok rrest => .ok (rv :: rrest)
      | .error e => .error e
    | .error e => .error e

end

/-- The `load` entry point (`load.py` lines 190-230): build a `Reviver`
from the options and run the walker over the parsed tree. -/
def load (t : SerializableMappings)
    (secretsMap : Option (List (String × String)))
    (validNamespaces : Option (List String))
    (secretsFromEnv : Bool)
    (additionalImportMappings : Option (List (List String × List String)))
    (w : World) (obj : Value) : Except LoadError Value :=
  loadValue (Reviver.init t secretsMap validNamespaces secretsFromEnv
    additionalImportMappings) w obj

/-- Whether an `Except` result is an error (a raised exception). -/
def isErr {E A : Type} : Except E A → Bool
  | .error _ => true
  | .ok _ => false

/-- Guard shape of a not-implemented node, tested on the raw input tree
(values not yet revived): same three conjuncts as `isNode`. -/
def isNotImplementedShape (kvs : List (String × Value)) : Bool :=
  isNode kvs "not_implemented"

mutual

/-- Some mapping of the tree, at any depth, has the not-implemented node
shape (`lc == 1`, `type == "not_implemented"`, non-null `id`). -/
def containsNotImpl : Value → Bool
  | .obj kvs => isNotImplementedShape kvs || containsNotImplFields kvs
  | .arr xs => containsNotImplElems xs
  | _ => false

/-- `containsNotImpl` over the values of a mapping. -/
def containsNotImplFields : List (String × Value) → Bool
  | [] => false
  | (_, v) :: rest => containsNotImpl v || containsNotImplFields rest

/-- `containsNotImpl` over the elements of a sequence. -/
def containsNotImplElems : List Value → Bool
  | [] => false
  | v :: rest => containsNotImpl v || containsNotImplElems rest

end

mutual

/-- No mapping of the tree, at any depth, has an `lc` field that Python
compares equal to `1` (so no mapping can trigger special dispatch). -/
def lcFree : Value → Bool
  | .obj kvs =>
    (match dget kvs "lc" with
      | some v => !pyEqOne v
      | none => true)
    && lcFreeFields kvs
  | .arr xs => lcFreeElems xs
  | _ => true

/-- `lcFree` over the values of a mapping. -/
def lcFreeFields : List (String × Value) → Bool
  | [] => true
  | (_, v) :: rest => lcFree v && lcFreeFields rest

/-- `lcFree` over the elements of a sequence. -/
def lcFreeElems : List Value → Bool
  | [] => true
  | v :: rest => lcFree v && lcFreeElems rest

end

/-- Empty external mapping tables, for concrete evaluations. -/
def emptyTables : SerializableMappings :=
  { serializableMapping := []
    oldCoreNamespacesMapping := []
    ogSerializableMapping := []
    jsSerializableMapping := [] }

/-- A world with an empty environment where no import resolves. -/
def bareWorld : World :=
  { osEnv := []
    importAttr := fun _ _ => none
    isSerializableClass := fun _ => false }

/-- A world where every import resolves to the dotted module path plus
the symbol name, every class passes the capability check, and the
environment binds `"APIKEY"`. -/
def richWorld : World :=
  { osEnv := [("APIKEY", "env-value")]
    importAttr := fun m n => some (m ++ "." ++ n)
    isSerializableClass := fun _ => true }

/-- A reviver built by `Reviver.init` over empty tables with default
options. -/
def plainReviver : Reviver :=
  Reviver.init emptyTables none none true none

/-- A reviver with a secrets-map entry for `"APIKEY"`. -/
def secretReviver : Reviver :=
  Reviver.init emptyTables (some [("APIKEY", "map-value")]) none true none

/-- A secret node for key `k`, as a mapping. -/
def secretNodeFields (k : String) : List (String × Value) :=
  [("lc", .num 1), ("type", .str "secret"), ("id", .arr [.str k])]

/-- A not-implemented node carrying an `id`, as a mapping. -/
def notImplNodeFields : List (String × Value) :=
  [("lc", .num 1), ("type", .str "not_implemented"),
   ("id", .arr [.str "acme", .str "Widget"])]

/-- A constructor node whose `id` has a single element, as a mapping. -/
def singletonIdConstructorFields : List (String × Value) :=
  [("lc", .num 1), ("type", .str "constructor"), ("id", .arr [.str "Foo"])]

/-- Mapping tables whose built-in registry maps the `PromptTemplate` key
to a built-in resolution path. -/
def overrideTables : SerializableMappings :=
  { serializableMapping :=
      [(["langchain_core", "prompts", "PromptTemplate"],
        ["langchain_core", "prompts", "prompt", "PromptTemplate"])]
    oldCoreNamespacesMapping := []
    ogSerializableMapping := []
    jsSerializableMapping := [] }

/-- Caller overrides shadowing the `PromptTemplate` key of
`overrideTables`. -/
def overrideAdd : List (List String × List String) :=
  [(["langchain_core", "prompts", "PromptTemplate"],
    ["my_pkg", "MyPrompt"])]

/-- A built-in-namespace constructor node for the `PromptTemplate` key. -/
def promptNodeFields : List (String × Value) :=
  [("lc", .num 1), ("type", .str "constructor"),
   ("id", .arr [.str "langchain_core", .str "prompts", .str "PromptTemplate"])]

theorem contains_append_left {l₁ l₂ : List String} {s : String}
    (h : l₁.contains s = true) : (l₁ ++ l₂).contains s = true := by
  rw [List.elem_iff] at h ⊢
  exact List.mem_append_left _ h

theorem init_validNamespaces_contains (t : SerializableMappings)
    (sm : Option (List (String × String))) (vns : Option (List String))
    (sfe : Bool) (aim : Option (List (List String × List String)))
    (s : String) (h : DEFAULT_NAMESPACES.contains s = true) :
    (Reviver.init t sm vns sfe aim).validNamespaces.contains s = true := by
  unfold Reviver.init
  match vns with
  | none => simpa using h
  | some l =>
    by_cases hl : l.isEmpty <;> simp only [hl, if_true, if_false]
    · simpa using h
    · simpa using contains_append_left h

/-- C1: for every secret node `{lc:1, type:"secret", id:[K]}` with `K`
present in the secrets map, revival returns `secretsMap[K]` for every
world (so the process environment — part of the world — is never
consulted), and any two runs that differ only in the world, in particular
in the environment's binding for `K`, return the same value. -/
theorem secret_precedence_env_independent (r : Reviver)
    (value : List (String × Value)) (K v : String)
    (hlc : dget value "lc" = some (.num 1))
    (hty : dget value "type" = some (.str "secret"))
    (hid : dget value "id" = some (.arr [.str K]))
    (hmap : dget r.secretsMap K = some v) :
    (∀ w : World, r.call w value = .ok (.str v)) ∧
    (∀ w₁ w₂ : World, r.call w₁ value = r.call w₂ value) := by
  have hcall : ∀ w : World, r.call w value = .ok (.str v) := by
    intro w
    simp [Reviver.call, isNode, hlc, hty, hid, pyEqOne, hmap]
  exact ⟨hcall, fun w₁ w₂ => (hcall w₁).trans (hcall w₂).symm⟩

/-- Witness for C1: with `secretsMap = {"APIKEY" ↦ "map-value"}` and the
environment binding `APIKEY` to a different string, revival returns the
map value. -/
theorem secret_precedence_env_independent_witness :
    Reviver.call secretReviver richWorld (secretNodeFields "APIKEY") =
      .ok (.str "map-value") :=
  (secret_precedence_env_independent secretReviver (secretNodeFields "APIKEY")
    "APIKEY" "map-value" rfl rfl rfl rfl).1 richWorld

/-- C6: for a secret node whose key `K` is absent from the secrets map:
if `secretsFromEnv` holds and the environment binds `K` to a non-empty
string `v`, revival returns `v`; otherwise (flag off, `K` unbound, or
bound to the empty string) revival fails with a missing-secret error
naming `K`. -/
theorem secret_env_fallback_and_missing (r : Reviver) (w : World)
    (value : List (String × Value)) (K : String)
    (hlc : dget value "lc" = some (.num 1))
    (hty : dget value "type" = some (.str "secret"))
    (hid : dget value "id" = some (.arr [.str K]))
    (habs : dget r.secretsMap K = none) :
    (∀ v : String, r.secretsFromEnv = true → dget w.osEnv K = some v →
      v ≠ "" → r.call w value = .ok (.str v)) ∧
    (r.secretsFromEnv = false ∨ dget w.osEnv K = none ∨
        dget w.osEnv K = some "" →
      r.call w value = .error (.missingSecret (.str K))) := by
  constructor
  · intro v henv hbind hne
    simp [Reviver.call, isNode, hlc, hty, hid, pyEqOne, habs, henv, hbind, hne]
  · rintro (hflag | hunbound | hempty) <;>
      simp [Reviver.call, isNode, hlc, hty, hid, pyEqOne, habs, *]

/-- Witness for C6: with an empty secrets map, `secretsFromEnv = true`
and `APIKEY = "env-value"` in the environment, revival returns the
environment value. -/
theorem secret_env_fallback_and_missing_witness :
    Reviver.call plainReviver richWorld (secretNodeFields "APIKEY") =
      .ok (.str "env-value") :=
  (secret_env_fallback_and_missing plainReviver richWorld
    (secretNodeFields "APIKEY") "APIKEY" rfl rfl rfl rfl).1
    "env-value" rfl rfl (by decide)

/-- C10: a mapping with `lc = 1` and `type` one of the three special
kinds but with no `id` field (or a null one) is returned unchanged by the
reviver — every dispatch branch also requires a non-null `id`. -/
theorem special_type_null_id_passthrough (r : Reviver) (w : World)
    (value : List (String × Value)) (ty : String)
    (hlc : dget value "lc" = some (.num 1))
    (hty : dget value "type" = some (.str ty))
    (hmem : ty = "secret" ∨ ty = "not_implemented" ∨ ty = "constructor")
    (hid : dget value "id" = none ∨ dget value "id" = some .null) :
    r.call w value = .ok (.obj value) := by
  rcases hid with hid | hid <;>
    simp [Reviver.call, isNode, hid]

/-- Witness for C10: a not-implemented node without `id` passes through. -/
theorem special_type_null_id_passthrough_witness :
    Reviver.call plainReviver bareWorld
      [("lc", .num 1), ("type", .str "not_implemented")] =
      .ok (.obj [("lc", .num 1), ("type", .str "not_implemented")]) :=
  special_type_null_id_passthrough plainReviver bareWorld
    [("lc", .num 1), ("type", .str "not_implemented")] "not_implemented"
    rfl rfl (Or.inr (Or.inl rfl)) (Or.inl rfl)

/-- Counterexample for C3: a constructor node whose `id` has exactly one
element does fail, but with an index-out-of-range error (`namespace[0]`
on line 107 of `load.py` raises `IndexError` on the empty namespace), not
with the invalid-namespace `ValueError`. -/
theorem constructor_empty_namespace_cex :
    loadValue plainReviver bareWorld (.obj singletonIdConstructorFields) =
      .error .indexError ∧
    (match loadValue plainReviver bareWorld (.obj singletonIdConstructorFields) with
      | .error (.invalidNamespace _) => False
      | _ => True) :=
  ⟨rfl, trivial⟩

/-- C3 as amended: a constructor node (`lc=1`, `type="constructor"`) whose
`id` is a one-element list — so the split namespace is empty — makes
revival fail with an index-out-of-range error, for every reviver and
world. -/
theorem constructor_empty_namespace_index_error (r : Reviver) (w : World)
    (value : List (String × Value)) (x : Value)
    (hlc : dget value "lc" = some (.num 1))
    (hty : dget value "type" = some (.str "constructor"))
    (hid : dget value "id" = some (.arr [x])) :
    r.call w value = .error .indexError := by
  simp [Reviver.call, isNode, hlc, hty, hid, pyEqOne]

/-- Witness for the amended C3 at the concrete node `id=["Foo"]`. -/
theorem constructor_empty_namespace_index_error_witness :
    Reviver.call plainReviver bareWorld singletonIdConstructorFields =
      .error .indexError :=
  constructor_empty_namespace_index_error plainReviver bareWorld
    singletonIdConstructorFields (.str "Foo") rfl rfl rfl

/-- C5: a constructor node whose namespace is the single segment
`"langchain"` is rejected with an invalid-namespace error by every
reviver built by `Reviver.init` — whatever extra namespaces or mappings
the caller supplies — even though `"langchain"` is allowlisted. -/
theorem bare_root_namespace_rejected (t : SerializableMappings)
    (sm : Option (List (String × String))) (vns : Option (List String))
    (sfe : Bool) (aim : Option (List (List String × List String)))
    (w : World) (value : List (String × Value)) (name : Value)
    (hlc : dget value "lc" = some (.num 1))
    (hty : dget value "type" = some (.str "constructor"))
    (hid : dget value "id" = some (.arr [.str "langchain", name])) :
    (Reviver.init t sm vns sfe aim).call w value =
      .error (.invalidNamespace value) := by
  have hvalid := init_validNamespaces_contains t sm vns sfe aim "langchain"
    (by decide)
  simp [Reviver.call, isNode, hlc, hty, hid, pyEqOne, hvalid]

/-- Witness for C5 with a caller-extended allowlist. -/
theorem bare_root_namespace_rejected_witness :
    Reviver.call (Reviver.init emptyTables none (some ["langchain"]) true none)
      richWorld
      [("lc", .num 1), ("type", .str "constructor"),
       ("id", .arr [.str "langchain", .str "LLMChain"])] =
      .error (.invalidNamespace
        [("lc", .num 1), ("type", .str "constructor"),
         ("id", .arr [.str "langchain", .str "LLMChain"])]) :=
  bare_root_namespace_rejected emptyTables none (some ["langchain"]) true none
    richWorld _ (.str "LLMChain") rfl rfl rfl

theorem asStrings_map_str (l : List String) :
    asStrings (l.map Value.str) = some l := by
  induction l with
  | nil => rfl
  | cons s rest ih => simp [asStrings, ih]

theorem dget_append {K V : Type} [DecidableEq K] (a b : List (K × V)) (k : K) :
    dget (a ++ b) k = match dget b k with
      | some v => some v
      | none => dget a k := by
  induction a with
  | nil =>
    rw [List.nil_append]
    cases h : dget b k <;> simp [h, dget]
  | cons kv rest ih =>
    obtain ⟨k', v⟩ := kv
    show (match dget (rest ++ b) k with
      | some r => some r
      | none => if k' = k then some v else none) = _
    rw [ih]
    cases h : dget b k <;> simp [h, dget]

/-- C7: a constructor node whose first namespace segment `s0` is in the
fixed built-in `DEFAULT_NAMESPACES` set but whose key
`namespace + [name]` has no entry in the merged import-mapping table
fails with an unsupported-version error — and it does so for *every*
world, so the import and construction oracles are never consulted.  (The
error payload `ids` is the key: the code's `tuple(namespace + [name])`
re-assembles exactly the `id` list.) -/
theorem unsupported_version_no_import (r : Reviver)
    (value : List (String × Value)) (ids : List Value) (s0 : String)
    (restNs : List String) (cname : String)
    (hlc : dget value "lc" = some (.num 1))
    (hty : dget value "type" = some (.str "constructor"))
    (hid : dget value "id" = some (.arr ids))
    (hids : ids = ((s0 :: restNs) ++ [cname]).map Value.str)
    (hvalid : r.validNamespaces.contains s0 = true)
    (hdef : DEFAULT_NAMESPACES.contains s0 = true)
    (hroot : s0 :: restNs ≠ ["langchain"])
    (hmiss : dget r.importMappings ((s0 :: restNs) ++ [cname]) = none) :
    ∀ w : World, r.call w value =
      .error (.unsupportedVersion ids) := by
  intro w
  have h1 : ids.getLast? = some (Value.str cname) := by
    rw [hids, List.map_append]
    rw [show List.map Value.str [cname] = [Value.str cname] from rfl]
    exact List.getLast?_concat _
  have h2 : ids.dropLast = Value.str s0 :: List.map Value.str restNs := by
    rw [hids, List.map_append]
    rw [show List.map Value.str [cname] = [Value.str cname] from rfl]
    rw [List.dropLast_concat]
    rfl
  have hkey : asStrings (Value.str s0 ::
        (List.map Value.str restNs ++ [Value.str cname])) =
      some (s0 :: (restNs ++ [cname])) := by
    have h := asStrings_map_str ((s0 :: restNs) ++ [cname])
    simp only [List.map_append, List.map_cons, List.map_nil,
      List.cons_append] at h
    exact h
  have hmiss2 : dget r.importMappings (s0 :: (restNs ++ [cname])) = none := by
    simpa using hmiss
  have hv : s0 ∈ r.validNamespaces := by
    rw [← List.elem_iff]; exact hvalid
  have hd : s0 ∈ DEFAULT_NAMESPACES := by
    rw [← List.elem_iff]; exact hdef
  have hr : ¬(restNs = [] ∧ s0 = "langchain") := by
    rintro ⟨h0, h1⟩
    exact hroot (by rw [h0, h1])
  simp [Reviver.call, isNode, hlc, hty, hid, pyEqOne, h1, h2, hkey, hmiss2,
    hv, hd, hr]
  simp [hids]

/-- Witness for C7: with empty mapping tables, the built-in-namespace key
`("langchain_core", "X")` is unmapped and revival fails with
unsupported-version, in a world where every import would succeed. -/
theorem unsupported_version_no_import_witness :
    Reviver.call plainReviver richWorld
      [("lc", .num 1), ("type", .str "constructor"),
       ("id", .arr [.str "langchain_core", .str "X"])] =
      .error (.unsupportedVersion [.str "langchain_core", .str "X"]) :=
  unsupported_version_no_import plainReviver
    [("lc", .num 1), ("type", .str "constructor"),
     ("id", .arr [.str "langchain_core", .str "X"])]
    [.str "langchain_core", .str "X"] "langchain_core" [] "X"
    rfl rfl rfl rfl rfl rfl (by decide) rfl richWorld

/-- C8: a key present both in the built-in tables and in the
caller-supplied `additionalImportMappings` resolves, in the merged
import-mapping table, to the caller-supplied path (overrides have highest
precedence), and a built-in-namespace constructor node with that key is
resolved through the override path (`constructVia w value path` is the
import-through-`path` + capability check + construction tail of the
code). -/
theorem additional_mappings_override (t : SerializableMappings)
    (sm : Option (List (String × String))) (vns : Option (List String))
    (sfe : Bool) (add : List (List String × List String))
    (key path builtin : List String)
    (hb : dget (allSerializableMappings t) key = some builtin)
    (ha : dget add key = some path) :
    dget (Reviver.init t sm vns sfe (some add)).importMappings key = some path ∧
    (∀ (w : World) (value : List (String × Value)) (ids : List Value)
        (s0 : String) (restNs : List String) (cname : String),
      dget value "lc" = some (.num 1) →
      dget value "type" = some (.str "constructor") →
      dget value "id" = some (.arr ids) →
      ids = ((s0 :: restNs) ++ [cname]).map Value.str →
      key = (s0 :: restNs) ++ [cname] →
      DEFAULT_NAMESPACES.contains s0 = true →
      s0 :: restNs ≠ ["langchain"] →
      (Reviver.init t sm vns sfe (some add)).call w value =
        constructVia w value path) := by
  have hne : add.isEmpty = false := by
    cases add with
    | nil => simp [dget] at ha
    | cons x l => rfl
  have hmerged : dget (Reviver.init t sm vns sfe (some add)).importMappings key =
      some path := by
    simp only [Reviver.init, hne, Bool.false_eq_true, if_false]
    rw [dget_append, ha]
  refine ⟨hmerged, ?_⟩
  intro w value ids s0 restNs cname hlc hty hid hids hkeyEq hdef hroot
  have h1 : ids.getLast? = some (Value.str cname) := by
    rw [hids, List.map_append]
    rw [show List.map Value.str [cname] = [Value.str cname] from rfl]
    exact List.getLast?_concat _
  have h2 : ids.dropLast = Value.str s0 :: List.map Value.str restNs := by
    rw [hids, List.map_append]
    rw [show List.map Value.str [cname] = [Value.str cname] from rfl]
    rw [List.dropLast_concat]
    rfl
  have hkey : asStrings (Value.str s0 ::
        (List.map Value.str restNs ++ [Value.str cname])) =
      some (s0 :: (restNs ++ [cname])) := by
    have h := asStrings_map_str ((s0 :: restNs) ++ [cname])
    simp only [List.map_append, List.map_cons, List.map_nil,
      List.cons_append] at h
    exact h
  have hmerged2 : dget (Reviver.init t sm vns sfe (some add)).importMappings
      (s0 :: (restNs ++ [cname])) = some path := by
    rw [hkeyEq] at hmerged
    simpa using hmerged
  have hv : s0 ∈ (Reviver.init t sm vns sfe (some add)).validNamespaces := by
    rw [← List.elem_iff]
    exact init_validNamespaces_contains t sm vns sfe (some add) s0 hdef
  have hd : s0 ∈ DEFAULT_NAMESPACES := by
    rw [← List.elem_iff]; exact hdef
  have hr : ¬(restNs = [] ∧ s0 = "langchain") := by
    rintro ⟨h0, h1⟩
    exact hroot (by rw [h0, h1])
  simp [Reviver.call, isNode, hlc, hty, hid, pyEqOne, h1, h2, hkey, hmerged2,
    hv, hd, hr]

/-- Witness for C8: the `PromptTemplate` key, mapped by both the built-in
table and the caller override, resolves through the override path; the
node revives to an instance of the class imported from the override
path. -/
theorem additional_mappings_override_witness :
    dget (Reviver.init overrideTables none none true
        (some overrideAdd)).importMappings
      ["langchain_core", "prompts", "PromptTemplate"] =
      some ["my_pkg", "MyPrompt"] ∧
    Reviver.call (Reviver.init overrideTables none none true (some overrideAdd))
      richWorld promptNodeFields =
      constructVia richWorld promptNodeFields ["my_pkg", "MyPrompt"] :=
  ⟨(additional_mappings_override overrideTables none none true overrideAdd
      ["langchain_core", "prompts", "PromptTemplate"] ["my_pkg", "MyPrompt"]
      ["langchain_core", "prompts", "prompt", "PromptTemplate"] rfl rfl).1,
   (additional_mappings_override overrideTables none none true overrideAdd
      ["langchain_core", "prompts", "PromptTemplate"] ["my_pkg", "MyPrompt"]
      ["langchain_core", "prompts", "prompt", "PromptTemplate"] rfl rfl).2
     richWorld promptNodeFields
     [.str "langchain_core", .str "prompts", .str "PromptTemplate"]
     "langchain_core" ["prompts"] "PromptTemplate"
     rfl rfl rfl rfl rfl rfl (by decide)⟩

theorem isNode_false_of_lcGuard (kvs : List (String × Value)) (ty : String)
    (h : (match dget kvs "lc" with
          | some v => !pyEqOne v
          | none => true) = true) :
    isNode kvs ty = false := by
  cases hdg : dget kvs "lc" with
  | none => simp [isNode, hdg]
  | some v =>
    rw [hdg] at h
    simp only [Bool.not_eq_true'] at h
    simp [isNode, hdg, h]

theorem call_of_not_special (r : Reviver) (w : World)
    (value : List (String × Value))
    (h1 : isNode value "secret" = false)
    (h2 : isNode value "not_implemented" = false)
    (h3 : isNode value "constructor" = false) :
    r.call w value = .ok (.obj value) := by
  simp [Reviver.call, h1, h2, h3]

mutual

theorem lcFree_loadValue (r : Reviver) (w : World) :
    ∀ t : Value, lcFree t = true → loadValue r w t = Except.ok t
  | .null, _ => rfl
  | .bool _, _ => rfl
  | .num _, _ => rfl
  | .str _, _ => rfl
  | .inst _ _, _ => rfl
  | .arr xs, h => by
    have hx : lcFreeElems xs = true := by
      simpa [lcFree] using h
    simp [loadValue, lcFree_loadElems r w xs hx]
  | .obj kvs, h => by
    have hparts := h
    simp only [lcFree, Bool.and_eq_true] at hparts
    have hfs : loadFields r w kvs = Except.ok kvs :=
      lcFree_loadFields r w kvs hparts.2
    have hn1 : isNode kvs "secret" = false :=
      isNode_false_of_lcGuard kvs _ hparts.1
    have hn2 : isNode kvs "not_implemented" = false :=
      isNode_false_of_lcGuard kvs _ hparts.1
    have hn3 : isNode kvs "constructor" = false :=
      isNode_false_of_lcGuard kvs _ hparts.1
    simp [loadValue, hfs, call_of_not_special r w kvs hn1 hn2 hn3]

theorem lcFree_loadFields (r : Reviver) (w : World) :
    ∀ kvs : List (String × Value), lcFreeFields kvs = true →
      loadFields r w kvs = Except.ok kvs
  | [], _ => rfl
  | (k, v) :: rest, h => by
    have h' : lcFree v = true ∧ lcFreeFields rest = true := by
      simpa [lcFreeFields] using h
    simp [loadFields, lcFree_loadValue r w v h'.1,
      lcFree_loadFields r w rest h'.2]

theorem lcFree_loadElems (r : Reviver) (w : World) :
    ∀ xs : List Value, lcFreeElems xs = true → loadElems r w xs = Except.ok xs
  | [], _ => rfl
  | v :: rest, h => by
    have h' : lcFree v = true ∧ lcFreeElems rest = true := by
      simpa [lcFreeElems] using h
    simp [loadElems, lcFree_loadValue r w v h'.1,
      lcFree_loadElems r w rest h'.2]

end

/-- C9: reviving a tree in which no mapping, at any depth, has an `lc`
field comparing equal to `1` (Python `==`, under which `True == 1`)
succeeds and returns the input tree itself — same mapping keys and
values, same sequence elements and order, same scalars. -/
theorem lc_free_passthrough (r : Reviver) (w : World) (t : Value)
    (h : lcFree t = true) : loadValue r w t = .ok t :=
  lcFree_loadValue r w t h

/-- Witness for C9 on a nested mixed tree without `lc` fields. -/
theorem lc_free_passthrough_witness :
    loadValue plainReviver richWorld
      (.obj [("a", .num 1), ("lc", .num 2),
             ("b", .arr [.str "x", .null, .obj [("type", .str "secret")]])]) =
      .ok (.obj [("a", .num 1), ("lc", .num 2),
             ("b", .arr [.str "x", .null, .obj [("type", .str "secret")]])]) :=
  lc_free_passthrough plainReviver richWorld _ rfl

theorem isNode_ty_unique (value : List (String × Value)) (ty1 ty2 : String)
    (hne : (ty1 == ty2) = false) (h : isNode value ty1 = true) :
    isNode value ty2 = false := by
  unfold isNode at h ⊢
  cases h1 : dget value "type" with
  | none => simp_all
  | some v => cases v <;> simp_all

theorem call_notImpl (r : Reviver) (w : World)
    (value : List (String × Value))
    (h : isNode value "not_implemented" = true) :
    r.call w value = .error (.notSerializable value) := by
  have hsec : isNode value "secret" = false :=
    isNode_ty_unique value "not_implemented" "secret" (by decide) h
  simp [Reviver.call, hsec, h]

theorem call_ok_ne_null (r : Reviver) (w : World)
    (value : List (String × Value)) (res : Value)
    (h : r.call w value = .ok res) : res ≠ .null := by
  simp only [Reviver.call, constructVia, finishConstruct] at h
  repeat' split at h
  all_goals (first
    | exact Except.noConfusion h
    | (injection h with h; subst h; simp))

theorem loadValue_ok_ne_null (r : Reviver) (w : World) (v rv : Value)
    (h : loadValue r w v = .ok rv) (hv : v ≠ .null) : rv ≠ .null := by
  cases v with
  | null => exact absurd rfl hv
  | bool b =>
    simp only [loadValue, Except.ok.injEq] at h
    subst h; simp
  | num n =>
    simp only [loadValue, Except.ok.injEq] at h
    subst h; simp
  | str s =>
    simp only [loadValue, Except.ok.injEq] at h
    subst h; simp
  | inst c kw =>
    simp only [loadValue, Except.ok.injEq] at h
    subst h; simp
  | arr xs =>
    simp only [loadValue] at h
    split at h
    · injection h with h; subst h; simp
    · exact Except.noConfusion h
  | obj kvs =>
    simp only [loadValue] at h
    split at h
    · exact call_ok_ne_null r w _ rv h
    · exact Except.noConfusion h

theorem loadFields_dget (r : Reviver) (w : World) :
    ∀ (kvs rkvs : List (String × Value)), loadFields r w kvs = .ok rkvs →
      ∀ k : String,
        (dget kvs k = none → dget rkvs k = none) ∧
        (∀ v, dget kvs k = some v →
          ∃ rv, loadValue r w v = .ok rv ∧ dget rkvs k = some rv)
  | [], rkvs, h, k => by
    simp only [loadFields, Except.ok.injEq] at h
    subst h
    simp [dget]
  | (k', v') :: rest, rkvs, h, k => by
    simp only [loadFields] at h
    cases hval : loadValue r w v' with
    | error e => simp [hval] at h
    | ok rv' =>
      cases hrest : loadFields r w rest with
      | error e => simp [hval, hrest] at h
      | ok rrest =>
        simp only [hval, hrest, Except.ok.injEq] at h
        subst h
        have base := loadFields_dget r w rest rrest hrest k
        cases hrk : dget rest k with
        | some u =>
          obtain ⟨ru, hru, hdr⟩ := base.2 u hrk
          constructor
          · intro hnone
            simp [dget, hrk] at hnone
          · intro v hv
            simp only [dget, hrk, Option.some.injEq] at hv
            subst hv
            exact ⟨ru, hru, by simp [dget, hdr]⟩
        | none =>
          have hnone' := base.1 hrk
          by_cases hk : k' = k
          · constructor
            · intro hnone
              simp [dget, hrk, hk] at hnone
            · intro v hv
              simp only [dget, hrk, hk, if_true, Option.some.injEq] at hv
              subst hv
              exact ⟨rv', hval, by simp [dget, hnone', hk]⟩
          · constructor
            · intro hnone
              simp [dget, hnone', hk]
            · intro v hv
              simp [dget, hrk, hk] at hv

theorem isNode_transport (r : Reviver) (w : World)
    (kvs rkvs : List (String × Value)) (ty : String)
    (h : loadFields r w kvs = .ok rkvs) (hn : isNode kvs ty = true) :
    isNode rkvs ty = true := by
  unfold isNode at hn ⊢
  simp only [Bool.and_eq_true] at hn ⊢
  obtain ⟨⟨hlc, hty⟩, hid⟩ := hn
  refine ⟨⟨?_, ?_⟩, ?_⟩
  · cases hdg : dget kvs "lc" with
    | none => rw [hdg] at hlc; exact absurd hlc (by simp)
    | some v =>
      rw [hdg] at hlc
      obtain ⟨rv, hrv, hdr⟩ := (loadFields_dget r w kvs rkvs h "lc").2 v hdg
      have hrv' : rv = v := by
        cases v <;> first
          | (simp only [loadValue, Except.ok.injEq] at hrv; exact hrv.symm)
          | simp [pyEqOne] at hlc
      rw [hdr, hrv']
      exact hlc
  · cases hdg : dget kvs "type" with
    | none => rw [hdg] at hty; exact absurd hty (by simp)
    | some v =>
      rw [hdg] at hty
      obtain ⟨rv, hrv, hdr⟩ := (loadFields_dget r w kvs rkvs h "type").2 v hdg
      have hrv' : rv = v := by
        cases v <;> first
          | (simp only [loadValue, Except.ok.injEq] at hrv; exact hrv.symm)
          | simp at hty
      rw [hdr, hrv']
      exact hty
  · cases hdg : dget kvs "id" with
    | none => rw [hdg] at hid; exact absurd hid (by simp)
    | some v =>
      rw [hdg] at hid
      have hvne : v ≠ Value.null := by
        intro hv
        subst hv
        simp at hid
      obtain ⟨rv, hrv, hdr⟩ := (loadFields_dget r w kvs rkvs h "id").2 v hdg
      have hne := loadValue_ok_ne_null r w v rv hrv hvne
      rw [hdr]
      cases rv <;> first
        | exact absurd rfl hne
        | rfl

mutual

theorem containsNotImpl_loadValue (r : Reviver) (w : World) :
    ∀ t : Value, containsNotImpl t = true → isErr (loadValue r w t) = true
  | .obj kvs, h => by
    simp only [containsNotImpl, isNotImplementedShape, Bool.or_eq_true] at h
    cases hfl : loadFields r w kvs with
    | error e => simp [loadValue, hfl, isErr]
    | ok rkvs =>
      rcases h with hshape | hfields
      · have hn : isNode rkvs "not_implemented" = true :=
          isNode_transport r w kvs rkvs "not_implemented" hfl hshape
        simp [loadValue, hfl, call_notImpl r w rkvs hn, isErr]
      · have herr := containsNotImpl_loadFields r w kvs hfields
        rw [hfl] at herr
        simp [isErr] at herr
  | .arr xs, h => by
    simp only [containsNotImpl] at h
    cases hfl : loadElems r w xs with
    | error e => simp [loadValue, hfl, isErr]
    | ok rs =>
      have herr := containsNotImpl_loadElems r w xs h
      rw [hfl] at herr
      simp [isErr] at herr
  | .null, h => by simp [containsNotImpl] at h
  | .bool b, h => by simp [containsNotImpl] at h
  | .num n, h => by simp [containsNotImpl] at h
  | .str s, h => by simp [containsNotImpl] at h
  | .inst c kw, h => by simp [containsNotImpl] at h

theorem containsNotImpl_loadFields (r : Reviver) (w : World) :
    ∀ kvs : List (String × Value), containsNotImplFields kvs = true →
      isErr (loadFields r w kvs) = true
  | [], h => by simp [containsNotImplFields] at h
  | (k, v) :: rest, h => by
    simp only [containsNotImplFields, Bool.or_eq_true] at h
    cases hval : loadValue r w v with
    | error e => simp [loadFields, hval, isErr]
    | ok rv =>
      rcases h with hv | hrest
      · have herr := containsNotImpl_loadValue r w v hv
        rw [hval] at herr
        simp [isErr] at herr
      · cases hfl : loadFields r w rest with
        | error e => simp [loadFields, hval, hfl, isErr]
        | ok rr =>
          have herr := containsNotImpl_loadFields r w rest hrest
          rw [hfl] at herr
          simp [isErr] at herr

theorem containsNotImpl_loadElems (r : Reviver) (w : World) :
    ∀ xs : List Value, containsNotImplElems xs = true →
      isErr (loadElems r w xs) = true
  | [], h => by simp [containsNotImplElems] at h
  | v :: rest, h => by
    simp only [containsNotImplElems, Bool.or_eq_true] at h
    cases hval : loadValue r w v with
    | error e => simp [loadElems, hval, isErr]
    | ok rv =>
      rcases h with hv | hrest
      · have herr := containsNotImpl_loadValue r w v hv
        rw [hval] at herr
        simp [isErr] at herr
      · cases hfl : loadElems r w rest with
        | error e => simp [loadElems, hval, hfl, isErr]
        | ok rr =>
          have herr := containsNotImpl_loadElems r w rest hrest
          rw [hfl] at herr
          simp [isErr] at herr

end

/-- Counterexample for C4: a mapping with `lc = 1` and
`type = "not_implemented"` but no `id` field is returned revived
unchanged (ordinary passthrough), so revival of a tree holding it
succeeds — the dispatch branch additionally requires a non-null `id`. -/
theorem not_implemented_without_id_passthrough_cex :
    loadValue plainReviver bareWorld
      (.obj [("lc", .num 1), ("type", .str "not_implemented")]) =
      .ok (.obj [("lc", .num 1), ("type", .str "not_implemented")]) := rfl

/-- C4 as amended: every mapping node with `lc = 1`,
`type = "not_implemented"` and a present, non-null `id` is revived to a
not-serializable error describing the node; and revival of any tree
containing such a node (at any depth) never succeeds — it fails with the
first error the post-order walk encounters, which is the
not-serializable error whenever no other error precedes it. -/
theorem not_implemented_node_fails :
    (∀ (r : Reviver) (w : World) (value : List (String × Value)),
      isNode value "not_implemented" = true →
      r.call w value = .error (.notSerializable value)) ∧
    (∀ (r : Reviver) (w : World) (t : Value),
      containsNotImpl t = true → isErr (loadValue r w t) = true) :=
  ⟨call_notImpl, containsNotImpl_loadValue⟩

/-- Witness for the amended C4: the reviver fails on a not-implemented
node with `id`, and a tree nesting that node deep inside fails too. -/
theorem not_implemented_node_fails_witness :
    Reviver.call plainReviver bareWorld notImplNodeFields =
      .error (.notSerializable notImplNodeFields) ∧
    isErr (loadValue plainReviver bareWorld
      (.obj [("x", .arr [.num 0, .obj notImplNodeFields])])) = true :=
  ⟨not_implemented_node_fails.1 plainReviver bareWorld notImplNodeFields rfl,
   not_implemented_node_fails.2 plainReviver bareWorld
     (.obj [("x", .arr [.num 0, .obj notImplNodeFields])]) rfl⟩

theorem loadFields_keys (r : Reviver) (w : World) :
    ∀ (kvs rkvs : List (String × Value)), loadFields r w kvs = .ok rkvs →
      rkvs.map Prod.fst = kvs.map Prod.fst
  | [], rkvs, h => by
    simp only [loadFields, Except.ok.injEq] at h
    subst h
    rfl
  | (k, v) :: rest, rkvs, h => by
    simp only [loadFields] at h
    cases hval : loadValue r w v with
    | error e => simp [hval] at h
    | ok rv =>
      cases hrest : loadFields r w rest with
      | error e => simp [hval, hrest] at h
      | ok rr =>
        simp only [hval, hrest, Except.ok.injEq] at h
        subst h
        simp [loadFields_keys r w rest rr hrest]

theorem loadValue_obj (r : Reviver) (w : World)
    (kvs rkvs : List (String × Value))
    (h : loadFields r w kvs = .ok rkvs) :
    loadValue r w (.obj kvs) = r.call w rkvs := by
  simp [loadValue, h]

theorem loadElems_eq_mapM (r : Reviver) (w : World) :
    ∀ xs : List Value, loadElems r w xs = xs.mapM (loadValue r w)
  | [] => rfl
  | v :: rest => by
    rw [List.mapM_cons, ← loadElems_eq_mapM r w rest]
    cases hval : loadValue r w v with
    | error e => simp [loadElems, hval, Bind.bind, Except.bind]
    | ok rv =>
      cases hrest : loadElems r w rest with
      | error e => simp [loadElems, hval, hrest, Bind.bind, Except.bind]
      | ok rr =>
        simp [loadElems, hval, hrest, Bind.bind, Except.bind, Pure.pure,
          Except.pure]

theorem walker_bottom_up_scenario (r : Reviver) (w : World)
    (ns cname cname2 K v cls cls2 : String)
    (hv : ns ∈ r.validNamespaces)
    (hnd : ns ∉ DEFAULT_NAMESPACES)
    (hne : ns ≠ "langchain")
    (hna1 : dget r.additionalImportMappings [ns, cname] = none)
    (hna2 : dget r.additionalImportMappings [ns, cname2] = none)
    (hsec : dget r.secretsMap K = some v)
    (himp1 : w.importAttr (String.intercalate "." [ns]) cname = some cls)
    (himp2 : w.importAttr (String.intercalate "." [ns]) cname2 = some cls2)
    (hs1 : w.isSerializableClass cls = true)
    (hs2 : w.isSerializableClass cls2 = true) :
    loadValue r w (.obj [("lc", .num 1), ("type", .str "constructor"),
      ("id", .arr [.str ns, .str cname]),
      ("kwargs", .obj [("api_key", .obj (secretNodeFields K)),
                       ("client", .obj [("lc", .num 1),
                          ("type", .str "constructor"),
                          ("id", .arr [.str ns, .str cname2])])])]) =
      .ok (.inst cls [("api_key", .str v), ("client", .inst cls2 [])]) := by
  simp [loadValue, loadFields, loadElems, secretNodeFields, Reviver.call,
    isNode, dget, pyEqOne, asStrings, importDirect, finishConstruct,
    constructVia, importViaPath, hv, hnd, hne, hna1, hna2, hsec, himp1, himp2,
    hs1, hs2]

/-- C2: the walker revives mapping values before passing the rebuilt
mapping — with the same keys — to the reviver, so a constructor node
whose `kwargs` contains a nested secret node receives the resolved
secret string, and one containing a nested constructor node receives the
live constructed object, never the raw `lc:1` mapping; sequences are
revived element-wise in order (`mapM`), and scalars are returned
unchanged. -/
theorem walker_bottom_up_revival (r : Reviver) (w : World) :
    (∀ (kvs rkvs : List (String × Value)), loadFields r w kvs = .ok rkvs →
      rkvs.map Prod.fst = kvs.map Prod.fst) ∧
    (∀ (kvs rkvs : List (String × Value)), loadFields r w kvs = .ok rkvs →
      loadValue r w (.obj kvs) = r.call w rkvs) ∧
    (∀ xs : List Value, loadElems r w xs = xs.mapM (loadValue r w)) ∧
    (loadValue r w .null = .ok .null ∧
     (∀ b, loadValue r w (.bool b) = .ok (.bool b)) ∧
     (∀ n, loadValue r w (.num n) = .ok (.num n)) ∧
     (∀ s, loadValue r w (.str s) = .ok (.str s))) ∧
    (∀ (ns cname cname2 K v cls cls2 : String),
      ns ∈ r.validNamespaces →
      ns ∉ DEFAULT_NAMESPACES →
      ns ≠ "langchain" →
      dget r.additionalImportMappings [ns, cname] = none →
      dget r.additionalImportMappings [ns, cname2] = none →
      dget r.secretsMap K = some v →
      w.importAttr (String.intercalate "." [ns]) cname = some cls →
      w.importAttr (String.intercalate "." [ns]) cname2 = some cls2 →
      w.isSerializableClass cls = true →
      w.isSerializableClass cls2 = true →
      loadValue r w (.obj [("lc", .num 1), ("type", .str "constructor"),
        ("id", .arr [.str ns, .str cname]),
        ("kwargs", .obj [("api_key", .obj (secretNodeFields K)),
                         ("client", .obj [("lc", .num 1),
                            ("type", .str "constructor"),
                            ("id", .arr [.str ns, .str cname2])])])]) =
        .ok (.inst cls [("api_key", .str v), ("client", .inst cls2 [])])) :=
  ⟨loadFields_keys r w, loadValue_obj r w, loadElems_eq_mapM r w,
   ⟨rfl, fun _ => rfl, fun _ => rfl, fun _ => rfl⟩,
   fun ns cname cname2 K v cls cls2 hv hnd hne hna1 hna2 hsec himp1 himp2
       hs1 hs2 =>
     walker_bottom_up_scenario r w ns cname cname2 K v cls cls2 hv hnd hne
       hna1 hna2 hsec himp1 himp2 hs1 hs2⟩

/-- Witness for C2: a constructor node in the custom namespace `acme`
whose `kwargs` nest a secret node and another constructor node revives to
a live instance whose named arguments are the resolved secret string and
the nested live instance. -/
theorem walker_bottom_up_revival_witness :
    loadValue (Reviver.init emptyTables (some [("K1", "s3cr3t")])
        (some ["acme"]) true none) richWorld
      (.obj [("lc", .num 1), ("type", .str "constructor"),
        ("id", .arr [.str "acme", .str "Widget"]),
        ("kwargs", .obj [("api_key", .obj (secretNodeFields "K1")),
                         ("client", .obj [("lc", .num 1),
                            ("type", .str "constructor"),
                            ("id", .arr [.str "acme", .str "Client"])])])]) =
      .ok (.inst "acme.Widget"
        [("api_key", .str "s3cr3t"), ("client", .inst "acme.Client" [])]) :=
  (walker_bottom_up_revival
      (Reviver.init emptyTables (some [("K1", "s3cr3t")])
        (some ["acme"]) true none) richWorld).2.2.2.2
    "acme" "Widget" "Client" "K1" "s3cr3t" "acme.Widget" "acme.Client"
    (by decide) (by decide) (by decide) rfl rfl rfl rfl rfl rfl rfl

end LangChainLoad
